import Mathlib

/-!
Shallow embedding of ShellHub's service-layer error model, the user update
services (UpdateDataUser / UpdatePasswordUser from api/services), and the
paginated firewall-rule store contract exercised by api/store/mongo tests.

Go errors are modelled as the inductive `GoErr`.  The pkg/errors package
(New / WithData / Wrap / Is) is not part of the provided sources, so its
chain semantics are modelled from the spec (sections 4.1 and 9): each chain
link records its own identity and `Is` walks the chain comparing links.
The sentinel catalog and the NewErr* builders are transcribed from
api/services/errors.go.
-/

namespace ShellHub

/-- Structured payload attached to a service error, keyed by error code:
ErrDataNotFound, ErrDataDuplicated, ErrDataLimit, ErrDataInvalid from
api/services/errors.go. -/
inductive ErrData where
  | notFound (id : String)
  | duplicated (values : List String)
  | limit (limit : Int)
  | invalid (fields : List String)
deriving DecidableEq, Repr

/-- A Go error value.  `sentinel` is a pkg/errors Error built by errors.New
(message, layer, code); `withData` attaches an ErrData payload; `wrap1` and
`wrap2` are errors.Wrap with a nil and a non-nil next error respectively;
`noDocuments` is the store-level absence sentinel store.ErrNoDocuments; and
`external` stands for any other opaque error produced outside the domain
taxonomy (driver failures and the like). -/
inductive GoErr where
  | sentinel (message layer : String) (code : Nat)
  | withData (e : GoErr) (d : ErrData)
  | wrap1 (outer : GoErr)
  | wrap2 (outer next : GoErr)
  | noDocuments
  | external (tag : String)
deriving DecidableEq, Repr

/-- Modelled from the spec: errors.New builds a sentinel carrying a message,
a layer tag and a discrete code. -/
def errorsNew (message layer : String) (code : Nat) : GoErr :=
  GoErr.sentinel message layer code

/-- Modelled from the spec: errors.WithData attaches structured data to an
error without discarding its identity. -/
def errorsWithData (e : GoErr) (d : ErrData) : GoErr :=
  GoErr.withData e d

/-- Modelled from the spec: errors.Wrap composes an error with a (possibly
nil) next error into a chain walkable by Is. -/
def errorsWrap (e : GoErr) : Option GoErr → GoErr
  | some n => GoErr.wrap2 e n
  | none => GoErr.wrap1 e

/-- Modelled from the spec: errors.Is succeeds exactly when the target
appears somewhere in the chain, regardless of how many payload-wrapping
layers sit on top; it compares links structurally and walks the whole
chain. -/
def Is : GoErr → GoErr → Bool
  | GoErr.withData inner d, t =>
      decide (GoErr.withData inner d = t) || Is inner t
  | GoErr.wrap1 outer, t =>
      decide (GoErr.wrap1 outer = t) || Is outer t
  | GoErr.wrap2 outer next, t =>
      decide (GoErr.wrap2 outer next = t) || Is outer t || Is next t
  | e, t => decide (e = t)

/-- All links of an error chain, the error itself included. -/
def chainLinks : GoErr → List GoErr
  | GoErr.withData inner d => GoErr.withData inner d :: chainLinks inner
  | GoErr.wrap1 outer => GoErr.wrap1 outer :: chainLinks outer
  | GoErr.wrap2 outer next =>
      GoErr.wrap2 outer next :: (chainLinks outer ++ chainLinks next)
  | e => [e]

/-- Layer tag of the domain error at the head of a chain, if any. -/
def topLayer : GoErr → Option String
  | GoErr.sentinel _ layer _ => some layer
  | GoErr.withData e _ => topLayer e
  | GoErr.wrap1 outer => topLayer outer
  | GoErr.wrap2 outer _ => topLayer outer
  | _ => none

/-- An error is a service-layer domain error when the head of its chain is a
pkg/errors value tagged with the service layer. -/
def isServiceError (e : GoErr) : Bool :=
  decide (topLayer e = some "service")

/-- Outermost structured payload of an error chain, if any. -/
def errDataOf : GoErr → Option ErrData
  | GoErr.withData _ d => some d
  | GoErr.wrap1 outer => errDataOf outer
  | GoErr.wrap2 outer _ => errDataOf outer
  | _ => none

/-- ErrLayer is the errors' level for service's error. -/
def ErrLayer : String := "service"

/-- Error code for a resource that is not found. -/
def ErrCodeNotFound : Nat := 1

/-- Error code for a duplicated resource. -/
def ErrCodeDuplicated : Nat := 2

/-- Error code for a resource that reached the limit. -/
def ErrCodeLimit : Nat := 3

/-- Error code for an invalid resource. -/
def ErrCodeInvalid : Nat := 4

/-- Error code for a resource that requires payment. -/
def ErrCodePayment : Nat := 5

/-- Error code for a failing store function. -/
def ErrCodeStore : Nat := 6

def ErrReport : GoErr := errorsNew "report error" ErrLayer ErrCodeInvalid

def ErrNotFound : GoErr := errorsNew "not found" ErrLayer ErrCodeNotFound

def ErrBadRequest : GoErr := errorsNew "bad request" ErrLayer ErrCodeInvalid

def ErrUnauthorized : GoErr := errorsNew "unauthorized" ErrLayer ErrCodeInvalid

def ErrForbidden : GoErr := errorsNew "forbidden" ErrLayer ErrCodeNotFound

def ErrUserNotFound : GoErr := errorsNew "user not found" ErrLayer ErrCodeNotFound

def ErrUserInvalid : GoErr := errorsNew "user invalid" ErrLayer ErrCodeInvalid

def ErrUserDuplicated : GoErr := errorsNew "user duplicated" ErrLayer ErrCodeDuplicated

def ErrNamespaceNotFound : GoErr := errorsNew "namespace not found" ErrLayer ErrCodeNotFound

def ErrMaxTagReached : GoErr := errorsNew "tag limit reached" ErrLayer ErrCodeLimit

def ErrDuplicateTagName : GoErr := errorsNew "tag duplicated" ErrLayer ErrCodeDuplicated

def ErrTagInvalid : GoErr := errorsNew "tag invalid" ErrLayer ErrCodeInvalid

/-- NewErrNotFound returns an error with the ErrDataNotFound and wraps an
error. -/
def NewErrNotFound (err : GoErr) (id : String) (next : Option GoErr) : GoErr :=
  errorsWrap (errorsWithData err (ErrData.notFound id)) next

/-- NewErrInvalid returns an error with the ErrDataInvalid and wraps an
error. -/
def NewErrInvalid (err : GoErr) (fields : List String) (next : Option GoErr) : GoErr :=
  errorsWrap (errorsWithData err (ErrData.invalid fields)) next

/-- NewErrDuplicated returns an error with the ErrDataDuplicated and wraps
an error. -/
def NewErrDuplicated (err : GoErr) (values : List String) (next : Option GoErr) : GoErr :=
  errorsWrap (errorsWithData err (ErrData.duplicated values)) next

/-- NewErrLimit returns an error with the ErrDataLimit and wraps an error. -/
def NewErrLimit (err : GoErr) (limit : Int) (next : Option GoErr) : GoErr :=
  errorsWrap (errorsWithData err (ErrData.limit limit)) next

/-- NewErrUserNotFound returns an error when the user is not found. -/
def NewErrUserNotFound (id : String) (next : Option GoErr) : GoErr :=
  NewErrNotFound ErrUserNotFound id next

/-- NewErrUserInvalid returns an error when the user is invalid. -/
def NewErrUserInvalid (fields : List String) (next : Option GoErr) : GoErr :=
  NewErrInvalid ErrUserInvalid fields next

/-- NewErrUserDuplicated returns an error when the user is duplicated. -/
def NewErrUserDuplicated (values : List String) (next : Option GoErr) : GoErr :=
  NewErrDuplicated ErrUserDuplicated values next

/-- NewErrTagInvalid returns an error when the tag is invalid. -/
def NewErrTagInvalid (tag : String) (next : Option GoErr) : GoErr :=
  NewErrInvalid ErrTagInvalid [tag] next

/-- NewErrTagDuplicated returns an error when the tag is duplicated. -/
def NewErrTagDuplicated (tag : String) (next : Option GoErr) : GoErr :=
  NewErrDuplicated ErrDuplicateTagName [tag] next

/-- NewErrTagLimit returns an error when the tag limit is reached. -/
def NewErrTagLimit (limit : Int) (next : Option GoErr) : GoErr :=
  NewErrLimit ErrMaxTagReached limit next

/-- Mutable user attributes carried by models.User.UserData. -/
structure UserData where
  name : String
  username : String
  email : String
deriving DecidableEq, Repr

/-- A stored user: an id, the mutable attributes, and the stored (already
transformed) password. -/
structure User where
  id : String
  userData : UserData
  password : String
deriving DecidableEq, Repr

/-- Validation and secret-transform boundary (pkg/validator is not part of
the provided sources).  Modelled from the spec: a deterministic structural
validator returning the list of invalid field names (empty means valid), a
normalization function applied before the conflict check, a password format
predicate, and a one-way deterministic password transform used only for
equality comparison. -/
structure Validator where
  validateStruct : UserData → List String
  formatUserData : UserData → UserData
  validateFieldPassword : String → Bool
  hashPassword : String → String

/-- The validator's FormatUser normalizes a user's mutable attributes in
place; here it returns the normalized user. -/
def FormatUser (v : Validator) (u : User) : User :=
  { u with userData := v.formatUserData u.userData }

/-- One store call performed by a service function, recorded in a trace. -/
inductive StoreOp where
  | getByID (id : String)
  | getByUsername (username : String)
  | getByEmail (email : String)
  | updateData (u : User) (id : String)
  | updatePassword (hash id : String)
deriving DecidableEq, Repr

/-- Store boundary consumed by the user services (the store implementation
is not part of the provided sources).  Each read returns the Go pair of a
possibly-nil user and a possibly-nil error; each write returns a
possibly-nil error. -/
structure UserStore where
  getByID : String → Option User × Option GoErr
  getByUsername : String → Option User × Option GoErr
  getByEmail : String → Option User × Option GoErr
  updateData : User → String → Option GoErr
  updatePassword : String → String → Option GoErr

/-- Transcription of the Go guard existentUser != nil && existentUser.ID !=
id used by UpdateDataUser for each uniqueness key. -/
def conflictsWith (res : Option User) (id : String) : Bool :=
  match res with
  | some existentUser => decide (existentUser.id ≠ id)
  | none => false

/-- UpdateDataUser from api/services, with explicit validator and store
arguments and a trace of the store calls it performs.  It returns the Go
pair of a conflict-field list and an error, plus the trace. -/
def UpdateDataUser (v : Validator) (st : UserStore) (user : User) (id : String) :
    (List String × Option GoErr) × List StoreOp :=
  match (st.getByID id).2 with
  | some err =>
      (([], some (NewErrUserNotFound id (some err))), [StoreOp.getByID id])
  | none =>
    let invalidFields := v.validateStruct user.userData
    if invalidFields = [] then
      let fu := FormatUser v user
      let r1 := st.getByUsername fu.userData.username
      let r2 := st.getByEmail fu.userData.email
      let conflictFields :=
        (if conflictsWith r1.1 id then ["username"] else []) ++
          (if conflictsWith r2.1 id then ["email"] else [])
      let duplicatedValues :=
        (if conflictsWith r1.1 id then [fu.userData.username] else []) ++
          (if conflictsWith r2.1 id then [fu.userData.email] else [])
      if conflictFields = [] then
        (([], st.updateData fu id),
          [StoreOp.getByID id, StoreOp.getByUsername fu.userData.username,
            StoreOp.getByEmail fu.userData.email, StoreOp.updateData fu id])
      else
        ((conflictFields, some (NewErrUserDuplicated duplicatedValues none)),
          [StoreOp.getByID id, StoreOp.getByUsername fu.userData.username,
            StoreOp.getByEmail fu.userData.email])
    else
      ((invalidFields, some (NewErrUserInvalid invalidFields none)),
        [StoreOp.getByID id])

/-- UpdatePasswordUser from api/services, with explicit validator and store
arguments and a trace of the store calls it performs. -/
def UpdatePasswordUser (v : Validator) (st : UserStore)
    (currentPassword newPassword id : String) : Option GoErr × List StoreOp :=
  if v.validateFieldPassword currentPassword = false then
    (some (NewErrUserInvalid ["current_password"] none), [])
  else if v.validateFieldPassword newPassword = false then
    (some (NewErrUserInvalid ["new_password"] none), [])
  else
    let current := v.hashPassword currentPassword
    let fresh := v.hashPassword newPassword
    if current = fresh then
      (some (NewErrUserDuplicated ["current_password", "new_password"] none), [])
    else
      let r := st.getByID id
      match r.1 with
      | none => (some (NewErrUserNotFound id r.2), [StoreOp.getByID id])
      | some user =>
        if user.password ≠ current then
          (some (NewErrUserInvalid ["current_password"] none), [StoreOp.getByID id])
        else
          (st.updatePassword fresh id, [StoreOp.getByID id, StoreOp.updatePassword fresh id])

/-- Modelled from the spec: a list-backed user store; a read of an absent
key returns the store-level absence sentinel. -/
def listGetByID (db : List User) (id : String) : Option User × Option GoErr :=
  match db.find? (fun u => u.id = id) with
  | some u => (some u, none)
  | none => (none, some GoErr.noDocuments)

/-- Modelled from the spec: lookup of a user by username. -/
def listGetByUsername (db : List User) (username : String) :
    Option User × Option GoErr :=
  match db.find? (fun u => u.userData.username = username) with
  | some u => (some u, none)
  | none => (none, some GoErr.noDocuments)

/-- Modelled from the spec: lookup of a user by email. -/
def listGetByEmail (db : List User) (email : String) :
    Option User × Option GoErr :=
  match db.find? (fun u => u.userData.email = email) with
  | some u => (some u, none)
  | none => (none, some GoErr.noDocuments)

/-- Modelled from the spec: UserUpdateData replaces the mutable attributes
of the user with the given id, keeping id and password; absence yields the
store sentinel and leaves the list unchanged. -/
def userUpdateData (db : List User) (user : User) (id : String) :
    List User × Option GoErr :=
  if db.any (fun u => u.id = id) then
    (db.map (fun u => if u.id = id then { u with userData := user.userData } else u),
      none)
  else
    (db, some GoErr.noDocuments)

/-- Modelled from the spec: UserUpdatePassword stores the transformed new
password for the user with the given id. -/
def userUpdatePassword (db : List User) (hash id : String) :
    List User × Option GoErr :=
  if db.any (fun u => u.id = id) then
    (db.map (fun u => if u.id = id then { u with password := hash } else u), none)
  else
    (db, some GoErr.noDocuments)

/-- The user store induced by a concrete list state. -/
def storeOf (db : List User) : UserStore where
  getByID := listGetByID db
  getByUsername := listGetByUsername db
  getByEmail := listGetByEmail db
  updateData := fun u id => (userUpdateData db u id).2
  updatePassword := fun hash id => (userUpdatePassword db hash id).2

/-- Effect of one store call on a list state: reads leave it unchanged,
writes apply the corresponding update. -/
def applyOp (db : List User) : StoreOp → List User
  | StoreOp.updateData u id => (userUpdateData db u id).1
  | StoreOp.updatePassword hash id => (userUpdatePassword db hash id).1
  | _ => db

/-- Effect of a trace of store calls on a list state. -/
def applyOps (db : List User) : List StoreOp → List User
  | [] => db
  | op :: rest => applyOps (applyOp db op) rest

/-- Filter of a firewall rule (models.FirewallFilter). -/
structure FirewallFilter where
  hostname : String
  tags : List String
deriving DecidableEq, Repr

/-- Mutable fields of a firewall rule (models.FirewallRuleFields). -/
structure FirewallRuleFields where
  priority : Int
  action : String
  active : Bool
  sourceIP : String
  username : String
  filter : FirewallFilter
deriving DecidableEq, Repr

/-- A stored firewall rule (models.FirewallRule). -/
structure FirewallRule where
  id : String
  tenantID : String
  fields : FirewallRuleFields
deriving DecidableEq, Repr

/-- Pagination query (pkg/api/paginator.Query). -/
structure PaginatorQuery where
  page : Int
  perPage : Int
deriving DecidableEq, Repr

/-- Modelled from the spec: the mongo FirewallRuleList implementation is not
part of the provided sources; per the spec's pagination invariant, a page or
perPage below one means unbounded mode returning every record, otherwise the
slice starting at skip = (page-1)*perPage of length perPage of the same
deterministic full ordering, with the total count always the full match
count.  The list state is kept in the store's deterministic order. -/
def FirewallRuleList (db : List FirewallRule) (q : PaginatorQuery) :
    List FirewallRule × Nat :=
  if q.page < 1 ∨ q.perPage < 1 then
    (db, db.length)
  else
    ((db.drop ((q.page - 1) * q.perPage).toNat).take q.perPage.toNat, db.length)

/-- Modelled from the spec: the mongo FirewallRuleGet implementation is not
part of the provided sources; absence yields store.ErrNoDocuments. -/
def FirewallRuleGet (db : List FirewallRule) (id : String) :
    Option FirewallRule × Option GoErr :=
  match db.find? (fun r => r.id = id) with
  | some r => (some r, none)
  | none => (none, some GoErr.noDocuments)

/-- Modelled from the spec: the mongo FirewallRuleUpdate implementation is
not part of the provided sources; it atomically replaces the rule's mutable
fields and returns the updated rule, or fails with store.ErrNoDocuments on
absence leaving the state unchanged.  The resulting list state is returned
alongside the Go result pair. -/
def FirewallRuleUpdate (db : List FirewallRule) (id : String)
    (patch : FirewallRuleFields) :
    (Option FirewallRule × Option GoErr) × List FirewallRule :=
  if db.any (fun r => r.id = id) then
    let db2 := db.map fun r => if r.id = id then { r with fields := patch } else r
    ((db2.find? (fun r => r.id = id), none), db2)
  else
    ((none, some GoErr.noDocuments), db)

/-- Modelled from the spec: the mongo FirewallRuleDelete implementation is
not part of the provided sources; it removes the rule with the given id, or
fails with store.ErrNoDocuments on absence leaving the state unchanged. -/
def FirewallRuleDelete (db : List FirewallRule) (id : String) :
    Option GoErr × List FirewallRule :=
  if db.any (fun r => r.id = id) then
    (none, db.filter (fun r => r.id ≠ id))
  else
    (some GoErr.noDocuments, db)

/-- The four firewall rules of the test fixture FixtureFirewallRules, in the
store's deterministic order, as listed by TestFirewallRuleList. -/
def fixtureFirewallRules : List FirewallRule :=
  [ { id := "6504b7bd9b6c4a63a9ccc053",
      tenantID := "00000000-0000-4000-0000-000000000000",
      fields := { priority := 1, action := "allow", active := true,
                  sourceIP := ".*", username := ".*",
                  filter := { hostname := "", tags := ["tag-1"] } } },
    { id := "e92f4a5d3e1a4f7b8b2b6e9a",
      tenantID := "00000000-0000-4000-0000-000000000000",
      fields := { priority := 2, action := "allow", active := true,
                  sourceIP := "192.168.1.10", username := "john.doe",
                  filter := { hostname := "", tags := ["tag-1"] } } },
    { id := "78c96f0a2e5b4dca8d78f00c",
      tenantID := "00000000-0000-4000-0000-000000000000",
      fields := { priority := 3, action := "allow", active := true,
                  sourceIP := "10.0.0.0/24", username := "admin",
                  filter := { hostname := "", tags := [] } } },
    { id := "3fd759a1ecb64ec5a07c8c0f",
      tenantID := "00000000-0000-4000-0000-000000000000",
      fields := { priority := 4, action := "deny", active := true,
                  sourceIP := "172.16.0.0/16", username := ".*",
                  filter := { hostname := "", tags := ["tag-1"] } } } ]

/-- Mutable fields used by TestFirewallRuleUpdate as the update payload. -/
def fixtureRulePatch : FirewallRuleFields :=
  { priority := 1, action := "deny", active := true, sourceIP := ".*",
    username := ".*", filter := { hostname := "", tags := ["editedtag"] } }

/-- A concrete instance of the validation boundary: every structure is
valid, normalization is the identity, a password is format-valid when it
has at least eight characters, and the one-way transform prefixes the
secret deterministically. -/
def plainValidator : Validator :=
  { validateStruct := fun _ => [],
    formatUserData := fun d => d,
    validateFieldPassword := fun p => decide (8 ≤ p.length),
    hashPassword := fun p => String.append "h:" p }

/-- A validator instance that rejects every password format and flags the
name field of every structure. -/
def rejectAllValidator : Validator :=
  { validateStruct := fun _ => ["name"],
    formatUserData := fun d => d,
    validateFieldPassword := fun _ => false,
    hashPassword := fun p => p }

/-- Sample stored user with id 1. -/
def aliceUser : User :=
  { id := "1",
    userData := { name := "Alice", username := "alice", email := "a@x.com" },
    password := "h:oldpassword1" }

/-- Sample stored user with id 2. -/
def bobUser : User :=
  { id := "2",
    userData := { name := "Bob", username := "bob", email := "b@x.com" },
    password := "h:bobpassword" }

/-- Sample store state holding the two users. -/
def sampleDB : List User := [aliceUser, bobUser]

/-- Candidate update of user 1 taking the username already held by user 2. -/
def aliceWantsBob : User :=
  { id := "1",
    userData := { name := "Alice", username := "bob", email := "a@x.com" },
    password := "h:oldpassword1" }

/-- Candidate update of user 1 to fresh unique values. -/
def aliceRenamed : User :=
  { id := "1",
    userData := { name := "Alice", username := "alice2", email := "a2@x.com" },
    password := "h:oldpassword1" }

/-- A store with no users at all: every read reports absence, every write
fails with the absence sentinel. -/
def emptyUserStore : UserStore where
  getByID := fun _ => (none, some GoErr.noDocuments)
  getByUsername := fun _ => (none, some GoErr.noDocuments)
  getByEmail := fun _ => (none, some GoErr.noDocuments)
  updateData := fun _ _ => some GoErr.noDocuments
  updatePassword := fun _ _ => some GoErr.noDocuments

/-- A store whose reads behave like the sample state but whose writes fail
with an opaque driver error. -/
def failingPersistStore : UserStore where
  getByID := listGetByID sampleDB
  getByUsername := listGetByUsername sampleDB
  getByEmail := listGetByEmail sampleDB
  updateData := fun _ _ => some (GoErr.external "disk failure")
  updatePassword := fun _ _ => some (GoErr.external "disk failure")

/-- A store whose existence read succeeds on the sample state but whose
uniqueness lookups fail with an opaque driver error returning no user. -/
def lookupFailStore : UserStore where
  getByID := listGetByID sampleDB
  getByUsername := fun _ => (none, some (GoErr.external "lookup blew up"))
  getByEmail := fun _ => (none, some (GoErr.external "lookup blew up"))
  updateData := fun _ _ => none
  updatePassword := fun _ _ => none

/-- A sibling of lookupFailStore differing only in the error component of
its uniqueness lookups. -/
def lookupFailStore2 : UserStore where
  getByID := listGetByID sampleDB
  getByUsername := fun _ => (none, some GoErr.noDocuments)
  getByEmail := fun _ => (none, none)
  updateData := fun _ _ => none
  updatePassword := fun _ _ => none

/-- Candidate update of user 1 taking both the username and the email
already held by user 2. -/
def aliceWantsBoth : User :=
  { id := "1",
    userData := { name := "Alice", username := "bob", email := "b@x.com" },
    password := "h:oldpassword1" }

theorem Is_refl (e : GoErr) : Is e e = true := by
  cases e <;> simp [Is]

theorem self_mem_chainLinks (e : GoErr) : e ∈ chainLinks e := by
  cases e <;> simp [chainLinks]

theorem Is_iff_mem_chainLinks (e t : GoErr) : Is e t = true ↔ t ∈ chainLinks e := by
  induction e with
  | sentinel m l c => simp [Is, chainLinks, eq_comm]
  | withData inner d ih =>
      rw [Is, chainLinks]
      simp only [Bool.or_eq_true, decide_eq_true_eq, List.mem_cons, ih]
      constructor
      · rintro (h | h)
        · exact Or.inl h.symm
        · exact Or.inr h
      · rintro (h | h)
        · exact Or.inl h.symm
        · exact Or.inr h
  | wrap1 outer ih =>
      rw [Is, chainLinks]
      simp only [Bool.or_eq_true, decide_eq_true_eq, List.mem_cons, ih]
      constructor
      · rintro (h | h)
        · exact Or.inl h.symm
        · exact Or.inr h
      · rintro (h | h)
        · exact Or.inl h.symm
        · exact Or.inr h
  | wrap2 outer next ih1 ih2 =>
      rw [Is, chainLinks]
      simp only [Bool.or_eq_true, decide_eq_true_eq, List.mem_cons,
        List.mem_append, ih1, ih2]
      constructor
      · rintro ((h | h) | h)
        · exact Or.inl h.symm
        · exact Or.inr (Or.inl h)
        · exact Or.inr (Or.inr h)
      · rintro (h | (h | h))
        · exact Or.inl (Or.inl h.symm)
        · exact Or.inl (Or.inr h)
        · exact Or.inr h
  | noDocuments => simp [Is, chainLinks, eq_comm]
  | external tag => simp [Is, chainLinks, eq_comm]

theorem Is_eq_false_of_not_mem {e t : GoErr} (h : t ∉ chainLinks e) :
    Is e t = false := by
  rw [← Bool.not_eq_true, Is_iff_mem_chainLinks]
  exact h

/-- C1: error identity survives wrapping.  Is is reflexive; Is holds of a
chain exactly when the target appears among its links; for any errors A and
B composed by Wrap and buried under one more wrapping layer, Is still finds
both A and B; an unrelated sentinel C appearing nowhere in the chain is
rejected; and the chains built by NewErrNotFound, NewErrInvalid,
NewErrDuplicated and NewErrLimit keep both the payload-carrying base error
and the wrapped next error findable by Is. -/
theorem C1_error_identity_survives_wrapping :
    (∀ e : GoErr, Is e e = true) ∧
    (∀ e t : GoErr, Is e t = true ↔ t ∈ chainLinks e) ∧
    (∀ a b extra : GoErr,
        Is (errorsWrap (errorsWrap a (some b)) (some extra)) a = true ∧
        Is (errorsWrap (errorsWrap a (some b)) (some extra)) b = true) ∧
    (∀ a b extra : GoErr, ∀ m l : String, ∀ k : Nat,
        errorsNew m l k ∉ chainLinks a →
        errorsNew m l k ∉ chainLinks b →
        errorsNew m l k ∉ chainLinks extra →
        Is (errorsWrap (errorsWrap a (some b)) (some extra)) (errorsNew m l k) = false) ∧
    (∀ (err next : GoErr) (id : String) (fields values : List String) (limit : Int),
        Is (NewErrNotFound err id (some next)) err = true ∧
        Is (NewErrNotFound err id (some next)) next = true ∧
        Is (NewErrInvalid err fields (some next)) err = true ∧
        Is (NewErrInvalid err fields (some next)) next = true ∧
        Is (NewErrDuplicated err values (some next)) err = true ∧
        Is (NewErrDuplicated err values (some next)) next = true ∧
        Is (NewErrLimit err limit (some next)) err = true ∧
        Is (NewErrLimit err limit (some next)) next = true) := by
  refine ⟨Is_refl, Is_iff_mem_chainLinks, ?_, ?_, ?_⟩
  · intro a b extra
    constructor <;> simp [Is, errorsWrap, Is_refl]
  · intro a b extra m l k hna hnb hne
    have h1 : Is a (GoErr.sentinel m l k) = false := Is_eq_false_of_not_mem hna
    have h2 : Is b (GoErr.sentinel m l k) = false := Is_eq_false_of_not_mem hnb
    have h3 : Is extra (GoErr.sentinel m l k) = false := Is_eq_false_of_not_mem hne
    simp only [errorsWrap, errorsNew, Is, h1, h2, h3, Bool.or_false]
    rfl
  · intro err next id fields values limit
    refine ⟨?_, ?_, ?_, ?_, ?_, ?_, ?_, ?_⟩ <;>
      simp [Is, NewErrNotFound, NewErrInvalid, NewErrDuplicated, NewErrLimit,
        errorsWrap, errorsWithData, Is_refl]

/-- Witness for C1 at concrete sentinels: the unrelated sentinel
ErrUserDuplicated does not occur in a chain built from ErrUserNotFound, a
store sentinel and an external error, and Is rejects it there. -/
theorem C1_error_identity_survives_wrapping_witness :
    ErrUserDuplicated ∉ chainLinks ErrUserNotFound ∧
    ErrUserDuplicated ∉ chainLinks GoErr.noDocuments ∧
    ErrUserDuplicated ∉ chainLinks (GoErr.external "db down") ∧
    Is (errorsWrap (errorsWrap ErrUserNotFound (some GoErr.noDocuments))
        (some (GoErr.external "db down"))) ErrUserDuplicated = false :=
  ⟨by decide, by decide, by decide,
    C1_error_identity_survives_wrapping.2.2.2.1 ErrUserNotFound GoErr.noDocuments
      (GoErr.external "db down") "user duplicated" ErrLayer ErrCodeDuplicated
      (by decide) (by decide) (by decide)⟩

/-- C2: pagination contract.  With page or perPage below one, List returns
every record and the total count equals the number of items returned;
otherwise List returns exactly the slice of length perPage starting at
(page-1)*perPage of the same full ordering used in unbounded mode, while
the total count still equals the full match count.  The fixture instances
reproduce TestFirewallRuleList: unbounded mode returns all four rules, and
page 2 with perPage 2 returns the third and fourth rules with total count
four. -/
theorem C2_pagination_contract :
    (∀ (db : List FirewallRule) (q : PaginatorQuery),
        q.page < 1 ∨ q.perPage < 1 →
        FirewallRuleList db q = (db, db.length) ∧
        (FirewallRuleList db q).1.length = (FirewallRuleList db q).2) ∧
    (∀ (db : List FirewallRule) (q : PaginatorQuery),
        1 ≤ q.page → 1 ≤ q.perPage →
        (FirewallRuleList db q).1 =
          (db.drop ((q.page - 1) * q.perPage).toNat).take q.perPage.toNat ∧
        (FirewallRuleList db q).2 = db.length ∧
        (FirewallRuleList db q).1 =
          ((FirewallRuleList db { page := -1, perPage := -1 }).1.drop
            ((q.page - 1) * q.perPage).toNat).take q.perPage.toNat) ∧
    FirewallRuleList fixtureFirewallRules { page := -1, perPage := -1 } =
      (fixtureFirewallRules, 4) ∧
    (FirewallRuleList fixtureFirewallRules { page := 2, perPage := 2 }).1.map
        FirewallRule.id =
      ["78c96f0a2e5b4dca8d78f00c", "3fd759a1ecb64ec5a07c8c0f"] ∧
    (FirewallRuleList fixtureFirewallRules { page := 2, perPage := 2 }).2 = 4 := by
  refine ⟨?_, ?_, by decide, by decide, by decide⟩
  · intro db q h
    simp [FirewallRuleList, if_pos h]
  · intro db q h1 h2
    have hn : ¬ (q.page < 1 ∨ q.perPage < 1) := by omega
    simp [FirewallRuleList, if_neg hn]

/-- Witness for C2 at concrete inputs: unbounded mode on the fixture set
returns everything, and page 2 of size 2 is the corresponding slice. -/
theorem C2_pagination_contract_witness :
    ((0 : Int) < 1 ∨ (5 : Int) < 1) ∧
    FirewallRuleList fixtureFirewallRules { page := 0, perPage := 5 } =
      (fixtureFirewallRules, fixtureFirewallRules.length) ∧
    (FirewallRuleList fixtureFirewallRules { page := 2, perPage := 2 }).1 =
      (fixtureFirewallRules.drop ((((2 : Int)) - 1) * 2).toNat).take
        ((2 : Int)).toNat :=
  ⟨Or.inl (by decide),
    (C2_pagination_contract.1 fixtureFirewallRules
      { page := 0, perPage := 5 } (Or.inl (by decide))).1,
    (C2_pagination_contract.2.1 fixtureFirewallRules
      { page := 2, perPage := 2 } (by decide) (by decide)).1⟩

/-- C6: for an id present nowhere in the store, Get, Update and Delete each
fail with the single absence sentinel store.ErrNoDocuments and leave the
store state unchanged. -/
theorem C6_absent_id_absence_sentinel :
    ∀ (db : List FirewallRule) (id : String) (patch : FirewallRuleFields),
      (∀ r ∈ db, r.id ≠ id) →
      FirewallRuleGet db id = (none, some GoErr.noDocuments) ∧
      FirewallRuleUpdate db id patch = ((none, some GoErr.noDocuments), db) ∧
      FirewallRuleDelete db id = (some GoErr.noDocuments, db) := by
  intro db id patch h
  have hfind : db.find? (fun r => r.id = id) = none := by
    rw [List.find?_eq_none]
    intro r hr
    simpa using h r hr
  have hany : db.any (fun r => r.id = id) = false := by
    rw [List.any_eq_false]
    intro r hr
    simpa using h r hr
  refine ⟨?_, ?_, ?_⟩
  · simp [FirewallRuleGet, hfind]
  · simp [FirewallRuleUpdate, hany]
  · simp [FirewallRuleDelete, hany]

/-- Witness for C6 at the ids used by the mongo store tests: a Get of an id
outside the fixture set, an Update of another such id, and a Delete against
an empty store all fail with the absence sentinel and change nothing. -/
theorem C6_absent_id_absence_sentinel_witness :
    FirewallRuleGet fixtureFirewallRules "6504b7bd9b6c4a63a9ccc021" =
      (none, some GoErr.noDocuments) ∧
    FirewallRuleUpdate fixtureFirewallRules "6504b7bd9b6c4a63a9ccc000"
        fixtureRulePatch =
      ((none, some GoErr.noDocuments), fixtureFirewallRules) ∧
    FirewallRuleDelete ([] : List FirewallRule) "6504ac006bf3dbca079f76b1" =
      (some GoErr.noDocuments, []) :=
  ⟨(C6_absent_id_absence_sentinel fixtureFirewallRules _ fixtureRulePatch
      (by decide)).1,
    (C6_absent_id_absence_sentinel fixtureFirewallRules _ fixtureRulePatch
      (by decide)).2.1,
    (C6_absent_id_absence_sentinel [] _ fixtureRulePatch (by decide)).2.2⟩

theorem UpdateDataUser_checks_passed (v : Validator) (st : UserStore)
    (user : User) (id : String)
    (h1 : (st.getByID id).2 = none)
    (h2 : v.validateStruct user.userData = []) :
    UpdateDataUser v st user id =
      (if conflictsWith (st.getByUsername (FormatUser v user).userData.username).1 id ||
          conflictsWith (st.getByEmail (FormatUser v user).userData.email).1 id then
        (((if conflictsWith (st.getByUsername (FormatUser v user).userData.username).1 id
              then ["username"] else []) ++
            (if conflictsWith (st.getByEmail (FormatUser v user).userData.email).1 id
              then ["email"] else []),
          some (NewErrUserDuplicated
            ((if conflictsWith (st.getByUsername (FormatUser v user).userData.username).1 id
                then [(FormatUser v user).userData.username] else []) ++
              (if conflictsWith (st.getByEmail (FormatUser v user).userData.email).1 id
                then [(FormatUser v user).userData.email] else [])) none)),
          [StoreOp.getByID id,
            StoreOp.getByUsername (FormatUser v user).userData.username,
            StoreOp.getByEmail (FormatUser v user).userData.email])
      else
        (([], st.updateData (FormatUser v user) id),
          [StoreOp.getByID id,
            StoreOp.getByUsername (FormatUser v user).userData.username,
            StoreOp.getByEmail (FormatUser v user).userData.email,
            StoreOp.updateData (FormatUser v user) id])) := by
  cases hc1 : conflictsWith (st.getByUsername (FormatUser v user).userData.username).1 id <;>
    cases hc2 : conflictsWith (st.getByEmail (FormatUser v user).userData.email).1 id <;>
      simp [UpdateDataUser, h1, h2, hc1, hc2]

theorem conflictsWith_iff (res : Option User) (id : String) :
    conflictsWith res id = true ↔ ∃ u, res = some u ∧ u.id ≠ id := by
  cases res <;> simp [conflictsWith]

theorem any_id_of_getByID_none {db : List User} {id : String}
    (h : (listGetByID db id).2 = none) :
    db.any (fun u => u.id = id) = true := by
  unfold listGetByID at h
  cases hf : db.find? (fun u => u.id = id) with
  | none => rw [hf] at h; simp at h
  | some u =>
      rw [List.any_eq_true]
      have hmem : u ∈ db := List.mem_of_find?_eq_some hf
      have hid : u.id = id := by
        have hp := List.find?_some hf
        simpa using hp
      exact ⟨u, hmem, by simpa using hid⟩

/-- C3: a uniqueness key is recorded as a conflict exactly when the per-key
lookup returns an existing user whose id differs from the candidate's own
id, and updating a user's unique fields to their own current values
succeeds with no Duplicated error. -/
theorem C3_conflict_excludes_self :
    (∀ (v : Validator) (st : UserStore) (user : User) (id : String),
      (st.getByID id).2 = none →
      v.validateStruct user.userData = [] →
      (conflictsWith (st.getByUsername (FormatUser v user).userData.username).1 id = true ↔
        ∃ u, (st.getByUsername (FormatUser v user).userData.username).1 = some u ∧
          u.id ≠ id) ∧
      (conflictsWith (st.getByEmail (FormatUser v user).userData.email).1 id = true ↔
        ∃ u, (st.getByEmail (FormatUser v user).userData.email).1 = some u ∧
          u.id ≠ id) ∧
      ("username" ∈ (UpdateDataUser v st user id).1.1 ↔
        conflictsWith (st.getByUsername (FormatUser v user).userData.username).1 id = true) ∧
      ("email" ∈ (UpdateDataUser v st user id).1.1 ↔
        conflictsWith (st.getByEmail (FormatUser v user).userData.email).1 id = true)) ∧
    (∀ (v : Validator) (db : List User) (u : User),
      ((storeOf db).getByID u.id).2 = none →
      v.validateStruct u.userData = [] →
      v.formatUserData u.userData = u.userData →
      ((storeOf db).getByUsername u.userData.username).1 = some u →
      ((storeOf db).getByEmail u.userData.email).1 = some u →
      (UpdateDataUser v (storeOf db) u u.id).1 = ([], none)) := by
  constructor
  · intro v st user id h1 h2
    refine ⟨conflictsWith_iff _ _, conflictsWith_iff _ _, ?_, ?_⟩ <;>
    · have key := UpdateDataUser_checks_passed v st user id h1 h2
      cases hc1 : conflictsWith (st.getByUsername (FormatUser v user).userData.username).1 id <;>
        cases hc2 : conflictsWith (st.getByEmail (FormatUser v user).userData.email).1 id <;>
          simp [hc1, hc2] at key <;> simp [key]
  · intro v db u h1 h2 hfmt hu he
    have hfu : FormatUser v u = u := by
      simp [FormatUser, hfmt]
    have key := UpdateDataUser_checks_passed v (storeOf db) u u.id h1 h2
    rw [hfu] at key
    have hc1 : conflictsWith ((storeOf db).getByUsername u.userData.username).1 u.id = false := by
      rw [hu]; simp [conflictsWith]
    have hc2 : conflictsWith ((storeOf db).getByEmail u.userData.email).1 u.id = false := by
      rw [he]; simp [conflictsWith]
    rw [hc1, hc2] at key
    simp only [Bool.or_self, Bool.false_eq_true, if_false] at key
    rw [key]
    have hany : db.any (fun x => x.id = u.id) = true := any_id_of_getByID_none h1
    have hupd : (userUpdateData db u u.id).2 = none := by
      simp [userUpdateData, hany]
    simp [storeOf, hupd]

/-- Witness for C3: in the sample store, user 1 keeping their own username
and email is not a self-conflict and the update succeeds with no error. -/
theorem C3_conflict_excludes_self_witness :
    ((storeOf sampleDB).getByUsername aliceUser.userData.username).1 = some aliceUser ∧
    ((storeOf sampleDB).getByEmail aliceUser.userData.email).1 = some aliceUser ∧
    (UpdateDataUser plainValidator (storeOf sampleDB) aliceUser aliceUser.id).1 =
      ([], none) :=
  ⟨by decide, by decide,
    C3_conflict_excludes_self.2 plainValidator sampleDB aliceUser
      (by decide) (by decide) (by decide) (by decide) (by decide)⟩

/-- C4: when a proposed unique value belongs to a different existing user,
UpdateDataUser fails with a Duplicated error listing every colliding value,
the store write is never invoked, and the store state after the call is the
pre-update state, so a re-Get returns the pre-update resource. -/
theorem C4_conflict_blocks_persist :
    ∀ (v : Validator) (db : List User) (user : User) (id : String),
      ((storeOf db).getByID id).2 = none →
      v.validateStruct user.userData = [] →
      (conflictsWith ((storeOf db).getByUsername (FormatUser v user).userData.username).1 id ||
        conflictsWith ((storeOf db).getByEmail (FormatUser v user).userData.email).1 id) = true →
      (UpdateDataUser v (storeOf db) user id).1.2 =
        some (NewErrUserDuplicated
          ((if conflictsWith ((storeOf db).getByUsername (FormatUser v user).userData.username).1 id
              then [(FormatUser v user).userData.username] else []) ++
            (if conflictsWith ((storeOf db).getByEmail (FormatUser v user).userData.email).1 id
              then [(FormatUser v user).userData.email] else [])) none) ∧
      (∀ (u2 : User) (id2 : String),
        StoreOp.updateData u2 id2 ∉ (UpdateDataUser v (storeOf db) user id).2) ∧
      applyOps db (UpdateDataUser v (storeOf db) user id).2 = db ∧
      listGetByID (applyOps db (UpdateDataUser v (storeOf db) user id).2) id =
        listGetByID db id := by
  intro v db user id h1 h2 hconf
  have key := UpdateDataUser_checks_passed v (storeOf db) user id h1 h2
  rw [if_pos hconf] at key
  rw [key]
  refine ⟨rfl, ?_, ?_, ?_⟩
  · intro u2 id2
    simp
  · simp [applyOps, applyOp]
  · simp [applyOps, applyOp]

/-- Witness for C4: in the sample store, user 1 claiming user 2's username
is rejected with a Duplicated error listing the value and the state is
untouched. -/
theorem C4_conflict_blocks_persist_witness :
    (UpdateDataUser plainValidator (storeOf sampleDB) aliceWantsBob "1").1.2 =
      some (NewErrUserDuplicated ["bob"] none) ∧
    applyOps sampleDB
        (UpdateDataUser plainValidator (storeOf sampleDB) aliceWantsBob "1").2 =
      sampleDB :=
  ⟨((C4_conflict_blocks_persist plainValidator sampleDB aliceWantsBob "1"
      (by decide) (by decide) (by decide)).1).trans (by decide),
    (C4_conflict_blocks_persist plainValidator sampleDB aliceWantsBob "1"
      (by decide) (by decide) (by decide)).2.2.1⟩

/-- C5: when both supplied secrets pass format validation and the one-way
transform of the new secret equals the transform of the current secret,
UpdatePasswordUser fails with a Duplicated error naming current_password
and new_password, performs no store call, and leaves any store state
unchanged. -/
theorem C5_credential_noop_guard :
    ∀ (v : Validator) (st : UserStore) (currentPassword newPassword id : String),
      v.validateFieldPassword currentPassword = true →
      v.validateFieldPassword newPassword = true →
      v.hashPassword currentPassword = v.hashPassword newPassword →
      UpdatePasswordUser v st currentPassword newPassword id =
        (some (NewErrUserDuplicated ["current_password", "new_password"] none), []) ∧
      ∀ db : List User,
        applyOps db (UpdatePasswordUser v st currentPassword newPassword id).2 = db := by
  intro v st c n id h1 h2 h3
  have hres : UpdatePasswordUser v st c n id =
      (some (NewErrUserDuplicated ["current_password", "new_password"] none), []) := by
    simp [UpdatePasswordUser, h1, h2, h3]
  exact ⟨hres, fun db => by rw [hres]; rfl⟩

/-- Witness for C5: submitting the current secret as the new secret in the
sample store yields the Duplicated error and no store interaction. -/
theorem C5_credential_noop_guard_witness :
    plainValidator.validateFieldPassword "oldpassword1" = true ∧
    plainValidator.hashPassword "oldpassword1" =
      plainValidator.hashPassword "oldpassword1" ∧
    UpdatePasswordUser plainValidator (storeOf sampleDB) "oldpassword1"
        "oldpassword1" "1" =
      (some (NewErrUserDuplicated ["current_password", "new_password"] none), []) :=
  ⟨by decide, rfl,
    (C5_credential_noop_guard plainValidator (storeOf sampleDB) "oldpassword1"
      "oldpassword1" "1" (by decide) (by decide) rfl).1⟩

/-- C10: the credential no-op check runs before the existence check.  For
every id, even one no user has, and format-valid passwords with equal
transforms, UpdatePasswordUser returns the Duplicated error, performs no
store call, and its result does not depend on the store at all. -/
theorem C10_noop_check_precedes_existence :
    ∀ (v : Validator) (st st2 : UserStore) (currentPassword newPassword id : String),
      v.validateFieldPassword currentPassword = true →
      v.validateFieldPassword newPassword = true →
      v.hashPassword currentPassword = v.hashPassword newPassword →
      (UpdatePasswordUser v st currentPassword newPassword id).1 =
        some (NewErrUserDuplicated ["current_password", "new_password"] none) ∧
      (UpdatePasswordUser v st currentPassword newPassword id).2 = [] ∧
      UpdatePasswordUser v st currentPassword newPassword id =
        UpdatePasswordUser v st2 currentPassword newPassword id := by
  intro v st st2 c n id h1 h2 h3
  have e1 : UpdatePasswordUser v st c n id =
      (some (NewErrUserDuplicated ["current_password", "new_password"] none), []) := by
    simp [UpdatePasswordUser, h1, h2, h3]
  have e2 : UpdatePasswordUser v st2 c n id =
      (some (NewErrUserDuplicated ["current_password", "new_password"] none), []) := by
    simp [UpdatePasswordUser, h1, h2, h3]
  exact ⟨by rw [e1], by rw [e1], e1.trans e2.symm⟩

/-- Witness for C10: against a store holding no user at all and an id no
user has, the hash-equal update still reports Duplicated, not NotFound, and
touches no store. -/
theorem C10_noop_check_precedes_existence_witness :
    (emptyUserStore.getByID "ghost").1 = none ∧
    (UpdatePasswordUser plainValidator emptyUserStore "password123"
        "password123" "ghost").1 =
      some (NewErrUserDuplicated ["current_password", "new_password"] none) ∧
    (UpdatePasswordUser plainValidator emptyUserStore "password123"
        "password123" "ghost").2 = [] ∧
    UpdatePasswordUser plainValidator emptyUserStore "password123" "password123"
        "ghost" =
      UpdatePasswordUser plainValidator (storeOf sampleDB) "password123"
        "password123" "ghost" :=
  ⟨rfl,
    (C10_noop_check_precedes_existence plainValidator emptyUserStore
      (storeOf sampleDB) "password123" "password123" "ghost"
      (by decide) (by decide) rfl).1,
    (C10_noop_check_precedes_existence plainValidator emptyUserStore
      (storeOf sampleDB) "password123" "password123" "ghost"
      (by decide) (by decide) rfl).2.1,
    (C10_noop_check_precedes_existence plainValidator emptyUserStore
      (storeOf sampleDB) "password123" "password123" "ghost"
      (by decide) (by decide) rfl).2.2⟩

/-- Counterexample to C7: with a store whose final persist fails with an
opaque driver error, both UpdateDataUser and UpdatePasswordUser hand that
raw store error to their caller unchanged; it is not a service-layer domain
error, so a raw store error does cross the pipeline boundary. -/
theorem C7_counterexample_raw_persist_error :
    (UpdateDataUser plainValidator failingPersistStore aliceRenamed "1").1.2 =
      some (GoErr.external "disk failure") ∧
    (UpdatePasswordUser plainValidator failingPersistStore "oldpassword1"
        "newpassword1" "1").1 =
      some (GoErr.external "disk failure") ∧
    isServiceError (GoErr.external "disk failure") = false := by
  refine ⟨by decide, by decide, rfl⟩

/-- C7 amended: a store failure observed by the initial existence read is
translated into a service NotFound wrapping the store error, which remains
inspectable through Is; but an error from the final persist step is
returned to the caller exactly as the store produced it, unwrapped. -/
theorem C7_amended_boundary_translation :
    (∀ (v : Validator) (st : UserStore) (user : User) (id : String) (err : GoErr),
      (st.getByID id).2 = some err →
      (UpdateDataUser v st user id).1.2 = some (NewErrUserNotFound id (some err)) ∧
      isServiceError (NewErrUserNotFound id (some err)) = true ∧
      Is (NewErrUserNotFound id (some err)) err = true ∧
      Is (NewErrUserNotFound id (some err)) ErrUserNotFound = true) ∧
    (∀ (v : Validator) (st : UserStore) (user : User) (id : String),
      (st.getByID id).2 = none →
      v.validateStruct user.userData = [] →
      conflictsWith (st.getByUsername (FormatUser v user).userData.username).1 id = false →
      conflictsWith (st.getByEmail (FormatUser v user).userData.email).1 id = false →
      (UpdateDataUser v st user id).1.2 = st.updateData (FormatUser v user) id) ∧
    (∀ (v : Validator) (st : UserStore) (currentPassword newPassword id : String)
        (user : User),
      v.validateFieldPassword currentPassword = true →
      v.validateFieldPassword newPassword = true →
      v.hashPassword currentPassword ≠ v.hashPassword newPassword →
      (st.getByID id).1 = some user →
      user.password = v.hashPassword currentPassword →
      (UpdatePasswordUser v st currentPassword newPassword id).1 =
        st.updatePassword (v.hashPassword newPassword) id) := by
  refine ⟨?_, ?_, ?_⟩
  · intro v st user id err h
    refine ⟨by simp [UpdateDataUser, h], ?_, ?_, ?_⟩
    · simp [isServiceError, topLayer, NewErrUserNotFound, NewErrNotFound,
        errorsWrap, errorsWithData, ErrUserNotFound, errorsNew, ErrLayer]
    · simp [Is, NewErrUserNotFound, NewErrNotFound, errorsWrap, errorsWithData,
        Is_refl]
    · simp [Is, NewErrUserNotFound, NewErrNotFound, errorsWrap, errorsWithData,
        ErrUserNotFound, errorsNew, Is_refl]
  · intro v st user id h1 h2 hc1 hc2
    have key := UpdateDataUser_checks_passed v st user id h1 h2
    rw [hc1, hc2] at key
    simp only [Bool.or_self, Bool.false_eq_true, if_false] at key
    rw [key]
  · intro v st c n id user h1 h2 h3 h4 h5
    simp [UpdatePasswordUser, h1, h2, h3, h4, h5]

/-- Witness for the amended C7: an existence-read failure surfaces as a
service NotFound wrapping the store sentinel, while a persist failure
surfaces as the raw driver error. -/
theorem C7_amended_boundary_translation_witness :
    (UpdateDataUser plainValidator emptyUserStore aliceRenamed "ghost").1.2 =
      some (NewErrUserNotFound "ghost" (some GoErr.noDocuments)) ∧
    (UpdatePasswordUser plainValidator failingPersistStore "oldpassword1"
        "newpassword1" "1").1 =
      failingPersistStore.updatePassword
        (plainValidator.hashPassword "newpassword1") "1" :=
  ⟨(C7_amended_boundary_translation.1 plainValidator emptyUserStore aliceRenamed
      "ghost" GoErr.noDocuments rfl).1,
    C7_amended_boundary_translation.2.2 plainValidator failingPersistStore
      "oldpassword1" "newpassword1" "1" aliceUser (by decide) (by decide)
      (by decide) (by decide) (by decide)⟩

/-- Counterexample to C8: with a store whose uniqueness lookup fails with an
opaque driver error that is not the absence sentinel, UpdateDataUser
returns success and still invokes the persist write; the lookup error is
silently discarded instead of being wrapped and returned. -/
theorem C8_counterexample_lookup_error_ignored :
    (lookupFailStore.getByUsername "alice2").2 =
      some (GoErr.external "lookup blew up") ∧
    (lookupFailStore.getByUsername "alice2").2 ≠ some GoErr.noDocuments ∧
    UpdateDataUser plainValidator lookupFailStore aliceRenamed "1" =
      (([], none),
        [StoreOp.getByID "1", StoreOp.getByUsername "alice2",
          StoreOp.getByEmail "a2@x.com", StoreOp.updateData aliceRenamed "1"]) := by
  refine ⟨rfl, by decide, by decide⟩

/-- C8 amended: only the existence read's store error is wrapped.  The
error components of the per-key conflict lookups never influence the
outcome — two stores differing only there produce identical results — and
when the lookups return no user the pipeline proceeds to persist even if
those lookups failed with a non-absence store error. -/
theorem C8_amended_lookup_errors_discarded :
    (∀ (v : Validator) (st st2 : UserStore) (user : User) (id : String),
      st.getByID = st2.getByID →
      st.updateData = st2.updateData →
      (∀ s, (st.getByUsername s).1 = (st2.getByUsername s).1) →
      (∀ s, (st.getByEmail s).1 = (st2.getByEmail s).1) →
      UpdateDataUser v st user id = UpdateDataUser v st2 user id) ∧
    (∀ (v : Validator) (st : UserStore) (user : User) (id : String),
      (st.getByID id).2 = none →
      v.validateStruct user.userData = [] →
      (st.getByUsername (FormatUser v user).userData.username).1 = none →
      (st.getByEmail (FormatUser v user).userData.email).1 = none →
      StoreOp.updateData (FormatUser v user) id ∈ (UpdateDataUser v st user id).2 ∧
      (UpdateDataUser v st user id).1 = ([], st.updateData (FormatUser v user) id)) := by
  constructor
  · intro v st st2 user id hid hupd hu he
    simp only [UpdateDataUser, hid, hupd, hu, he]
  · intro v st user id h1 h2 hu he
    have key := UpdateDataUser_checks_passed v st user id h1 h2
    have hc1 : conflictsWith (st.getByUsername (FormatUser v user).userData.username).1 id = false := by
      rw [hu]; rfl
    have hc2 : conflictsWith (st.getByEmail (FormatUser v user).userData.email).1 id = false := by
      rw [he]; rfl
    rw [hc1, hc2] at key
    simp only [Bool.or_self, Bool.false_eq_true, if_false] at key
    rw [key]
    simp

/-- Witness for the amended C8: the two lookup-failing stores differ only in
their lookup error components and yield identical pipeline results, and the
pipeline persists despite the driver error reported by the lookup. -/
theorem C8_amended_lookup_errors_discarded_witness :
    UpdateDataUser plainValidator lookupFailStore aliceWantsBob "1" =
      UpdateDataUser plainValidator lookupFailStore2 aliceWantsBob "1" ∧
    StoreOp.updateData aliceRenamed "1" ∈
      (UpdateDataUser plainValidator lookupFailStore aliceRenamed "1").2 :=
  ⟨C8_amended_lookup_errors_discarded.1 plainValidator lookupFailStore
      lookupFailStore2 aliceWantsBob "1" rfl rfl (fun _ => rfl) (fun _ => rfl),
    (C8_amended_lookup_errors_discarded.2 plainValidator lookupFailStore
      aliceRenamed "1" (by decide) (by decide) rfl rfl).1⟩

/-- Counterexample to C9: when both supplied passwords fail format
validation, UpdatePasswordUser reports only current_password; the field
list of the Invalid error does not contain new_password, so the first
detected violation masks the second. -/
theorem C9_counterexample_first_violation_masks_second :
    rejectAllValidator.validateFieldPassword "short" = false ∧
    rejectAllValidator.validateFieldPassword "alsoshort" = false ∧
    UpdatePasswordUser rejectAllValidator emptyUserStore "short" "alsoshort" "1" =
      (some (NewErrUserInvalid ["current_password"] none), []) ∧
    errDataOf (NewErrUserInvalid ["current_password"] none) =
      some (ErrData.invalid ["current_password"]) ∧
    some (ErrData.invalid ["current_password"]) ≠
      some (ErrData.invalid ["current_password", "new_password"]) := by
  refine ⟨rfl, rfl, by decide, rfl, by decide⟩

/-- C9 amended: UpdateDataUser reports failures completely — the Invalid
error carries the validator's whole invalid-field list and a double
collision yields a Duplicated error listing both colliding values — but
UpdatePasswordUser checks the two password formats sequentially and names
only the first offending field, so an invalid current password masks an
invalid new password. -/
theorem C9_amended_completeness :
    (∀ (v : Validator) (st : UserStore) (user : User) (id : String),
      (st.getByID id).2 = none →
      v.validateStruct user.userData ≠ [] →
      (UpdateDataUser v st user id).1 =
        (v.validateStruct user.userData,
          some (NewErrUserInvalid (v.validateStruct user.userData) none))) ∧
    (∀ (v : Validator) (st : UserStore) (user : User) (id : String),
      (st.getByID id).2 = none →
      v.validateStruct user.userData = [] →
      conflictsWith (st.getByUsername (FormatUser v user).userData.username).1 id = true →
      conflictsWith (st.getByEmail (FormatUser v user).userData.email).1 id = true →
      (UpdateDataUser v st user id).1 =
        (["username", "email"],
          some (NewErrUserDuplicated
            [(FormatUser v user).userData.username,
              (FormatUser v user).userData.email] none))) ∧
    (∀ (v : Validator) (st : UserStore) (currentPassword newPassword id : String),
      v.validateFieldPassword currentPassword = false →
      UpdatePasswordUser v st currentPassword newPassword id =
        (some (NewErrUserInvalid ["current_password"] none), [])) := by
  refine ⟨?_, ?_, ?_⟩
  · intro v st user id h1 h2
    simp [UpdateDataUser, h1, h2]
  · intro v st user id h1 h2 hc1 hc2
    have key := UpdateDataUser_checks_passed v st user id h1 h2
    rw [hc1, hc2] at key
    simp only [Bool.or_self, if_true] at key
    rw [key]
    simp
  · intro v st c n id h
    simp [UpdatePasswordUser, h]

/-- Witness for the amended C9: in the sample store, user 1 claiming both of
user 2's unique values gets a Duplicated error listing both values, and an
always-failing validator yields an Invalid error with its full field list
from UpdateDataUser while UpdatePasswordUser names only the first field. -/
theorem C9_amended_completeness_witness :
    (UpdateDataUser plainValidator (storeOf sampleDB) aliceWantsBoth "1").1 =
      (["username", "email"],
        some (NewErrUserDuplicated ["bob", "b@x.com"] none)) ∧
    (UpdateDataUser rejectAllValidator (storeOf sampleDB) aliceRenamed "1").1 =
      (["name"], some (NewErrUserInvalid ["name"] none)) ∧
    UpdatePasswordUser rejectAllValidator (storeOf sampleDB) "short" "alsoshort"
        "1" =
      (some (NewErrUserInvalid ["current_password"] none), []) :=
  ⟨(C9_amended_completeness.2.1 plainValidator (storeOf sampleDB) aliceWantsBoth
      "1" (by decide) (by decide) (by decide) (by decide)).trans (by decide),
    C9_amended_completeness.1 rejectAllValidator (storeOf sampleDB) aliceRenamed
      "1" (by decide) (by decide),
    C9_amended_completeness.2.2 rejectAllValidator (storeOf sampleDB) "short"
      "alsoshort" "1" rfl⟩

end ShellHub
